import Mathlib

/-!
Verification of the HydraFlow-X standalone dashboard
(`src/standalone_dashboard.py`), a metrics/telemetry broadcaster.

The Python program is shallowly embedded here:
* floats are modelled as rationals (`ℚ`),
* the pseudo-random draws consumed by one call of
  `generate_live_data` are gathered in an explicit `Draws` record,
  with `validDraws` stating the bounds each library call guarantees
  (`random.randint(1,5)`, `random.uniform(1000,50000)`, ...),
* the client set `self.clients` is modelled as a `List Nat` of opaque
  handles,
* one iteration of the body of `broadcast_data` (a "tick") becomes the
  pure function `broadcast_tick`, which returns the new state, the
  message that was serialized (if any), and the per-client delivery
  outcomes; `asyncio.gather(..., return_exceptions=True)` is modelled
  by collecting each delivery outcome as an `Except` value instead of
  raising.
-/

/-- The metrics dictionary `self.metrics` of `HydraFlowDashboard.__init__`. -/
structure Metrics where
  orders_executed : Nat
  total_volume : ℚ
  avg_latency_us : ℚ
  success_rate : ℚ
  active_strategies : Nat
  ai_confidence : ℚ
  risk_score : ℚ
  memecoin_scanned : Nat
  profits_usd : ℚ
deriving Repr, DecidableEq

/-- A trade record as built in `generate_live_data`. -/
structure Trade where
  id : String
  timestamp : String
  token : String
  side : String
  amount_usd : ℚ
  price : ℚ
  latency_us : ℚ
  status : String
  source : String
  exchange : String
deriving Repr, DecidableEq

/-- The token symbol list `self.tokens` of `__init__`. -/
def tokens : List String :=
  ["BTC", "ETH", "SOL", "PEPE", "SHIB", "DOGE", "BONK", "WIF", "POPCAT", "MOODENG"]

/-- The side alternatives `['BUY', 'SELL']` in `generate_live_data`. -/
def sides : List String := ["BUY", "SELL"]

/-- The source tags `['AI_SIGNAL', 'ARBITRAGE', 'MOMENTUM', 'SENTIMENT']`. -/
def sourcesList : List String := ["AI_SIGNAL", "ARBITRAGE", "MOMENTUM", "SENTIMENT"]

/-- The exchange tags `['RAYDIUM', 'ORCA', 'JUPITER', 'UNISWAP']`. -/
def exchanges : List String := ["RAYDIUM", "ORCA", "JUPITER", "UNISWAP"]

/-- The random draws consumed by one call of `generate_live_data`,
made explicit. Each field corresponds to one `random.*` call in the
source, in order of appearance; `random.choice` is modelled as the
drawn index into the respective list. -/
structure Draws where
  ordersInc : Nat
  volumeInc : ℚ
  latencySample : ℚ
  confidenceDraw : ℚ
  riskDraw : ℚ
  memecoinInc : Nat
  profitsInc : ℚ
  eventRoll : ℚ
  tokenIdx : Nat
  sideIdx : Nat
  amountDraw : ℚ
  priceDraw : ℚ
  latencyDraw : ℚ
  sourceIdx : Nat
  exchangeIdx : Nat
  timeMs : Nat
  isoNow : String

/-- Bounds guaranteed by the Python random library for each draw of
`generate_live_data`: `randint(a,b)` and `uniform(a,b)` return values
in the closed interval `[a,b]`, `random()` returns a value in `[0,1)`,
and `choice(l)` picks an index below `l.length`. -/
def validDraws (d : Draws) : Prop :=
  1 ≤ d.ordersInc ∧ d.ordersInc ≤ 5 ∧
  1000 ≤ d.volumeInc ∧ d.volumeInc ≤ 50000 ∧
  50 ≤ d.latencySample ∧ d.latencySample ≤ 150 ∧
  0 ≤ d.confidenceDraw ∧ d.confidenceDraw ≤ 1/4 ∧
  1/20 ≤ d.riskDraw ∧ d.riskDraw ≤ 1/4 ∧
  d.memecoinInc ≤ 3 ∧
  -100 ≤ d.profitsInc ∧ d.profitsInc ≤ 500 ∧
  0 ≤ d.eventRoll ∧ d.eventRoll < 1 ∧
  d.tokenIdx < tokens.length ∧
  d.sideIdx < sides.length ∧
  1000 ≤ d.amountDraw ∧ d.amountDraw ≤ 25000 ∧
  1/1000 ≤ d.priceDraw ∧ d.priceDraw ≤ 100000 ∧
  45 ≤ d.latencyDraw ∧ d.latencyDraw ≤ 200 ∧
  d.sourceIdx < sourcesList.length ∧
  d.exchangeIdx < exchanges.length

instance (d : Draws) : Decidable (validDraws d) := by
  unfold validDraws
  infer_instance

/-- Round half to even on integers scaled by `10 ^ n`, the behavior of
the Python builtin `round(x, n)`. -/
def roundHalfEven (q : ℚ) : ℤ :=
  let f := ⌊q⌋
  let frac := q - (f : ℚ)
  if frac < 1/2 then f
  else if 1/2 < frac then f + 1
  else if f % 2 = 0 then f else f + 1

/-- The Python builtin `round(x, n)`: round to `n` decimal places,
ties to even. -/
def pyRound (n : Nat) (q : ℚ) : ℚ :=
  ((roundHalfEven (q * 10 ^ n) : ℚ)) / 10 ^ n

/-- The trade record built in `generate_live_data` from the given draws
(lines 91-102 of the source). -/
def mkTrade (d : Draws) : Trade :=
  { id := "T" ++ toString d.timeMs
    timestamp := d.isoNow
    token := tokens.getD d.tokenIdx ""
    side := sides.getD d.sideIdx ""
    amount_usd := pyRound 2 d.amountDraw
    price := pyRound 6 d.priceDraw
    latency_us := pyRound 1 d.latencyDraw
    status := "EXECUTED"
    source := sourcesList.getD d.sourceIdx ""
    exchange := exchanges.getD d.exchangeIdx "" }

/-- Append a trade to `self.live_trades`, then keep only the last 100
entries (`self.live_trades = self.live_trades[-100:]` when
`len > 100`), as in lines 104-108 of the source. -/
def appendTrade (trades : List Trade) (t : Trade) : List Trade :=
  let ts := trades ++ [t]
  if 100 < ts.length then ts.drop (ts.length - 100) else ts

/-- The metric mutation of `generate_live_data` (lines 75-81). -/
def updateMetrics (m : Metrics) (d : Draws) : Metrics :=
  { m with
    orders_executed := m.orders_executed + d.ordersInc
    total_volume := m.total_volume + d.volumeInc
    avg_latency_us := d.latencySample
    ai_confidence := 3/4 + d.confidenceDraw
    risk_score := d.riskDraw
    memecoin_scanned := m.memecoin_scanned + d.memecoinInc
    profits_usd := m.profits_usd + d.profitsInc }

/-- `HydraFlowDashboard.generate_live_data`: mutate the metrics, then
with the 30 percent trade roll (`random.random() > 0.7`) append one
trade. Returns the new metrics and trade history. -/
def generate_live_data (m : Metrics) (trades : List Trade) (d : Draws) :
    Metrics × List Trade :=
  (updateMetrics m d,
   if 7/10 < d.eventRoll then appendTrade trades (mkTrade d) else trades)

/-- The mutable state of a `HydraFlowDashboard` instance: the client
set (as a list of opaque handles), the metrics, and the trade
history. -/
structure DashState where
  clients : List Nat
  metrics : Metrics
  live_trades : List Trade
deriving Repr, DecidableEq

/-- The last `n` entries of a list in order, Python `l[-n:]`. -/
def lastN (n : Nat) (l : List α) : List α := l.drop (l.length - n)

/-- The fixed `system_status` map of `broadcast_data` (lines 55-61). -/
def system_status : List (String × String) :=
  [("core_engine", "ONLINE"),
   ("ai_system", "PROCESSING"),
   ("execution_engine", "ULTRA_FAST"),
   ("risk_manager", "PROTECTED"),
   ("network", "OPTIMAL")]

/-- The `data` dictionary serialized and sent in `broadcast_data`
(lines 50-62). -/
structure Message where
  type : String
  timestamp : String
  metrics : Metrics
  live_trades : List Trade
  system_status : List (String × String)
deriving Repr, DecidableEq

/-- One iteration of the `while` body of
`HydraFlowDashboard.broadcast_data`, the tick. `sendFails c = true`
means the delivery channel of client `c` errors on send. Returns the
new state, the message that was built and serialized (`none` when the
client set was empty and the body was skipped), and the per-client
delivery outcomes, one per client, in set order. Exceptions are
collected as `Except.error` values, mirroring
`asyncio.gather(..., return_exceptions=True)`, so the function itself
never fails. -/
def broadcast_tick (s : DashState) (d : Draws) (sendFails : Nat → Bool) :
    DashState × Option Message × List (Nat × Except Unit Unit) :=
  if s.clients.isEmpty then (s, none, [])
  else
    let gen := generate_live_data s.metrics s.live_trades d
    let msg : Message :=
      { type := "update"
        timestamp := d.isoNow
        metrics := gen.1
        live_trades := lastN 10 gen.2
        system_status := system_status }
    let results := s.clients.map fun c =>
      (c, if sendFails c then Except.error () else Except.ok ())
    ({ s with metrics := gen.1, live_trades := gen.2 }, some msg, results)

/-- Run a sequence of ticks, each with its own draws and failure
oracle. -/
def runTicks (s : DashState) (inputs : List (Draws × (Nat → Bool))) : DashState :=
  inputs.foldl (fun st p => (broadcast_tick st p.1 p.2).1) s

/-- Client registration, `self.clients.add(websocket)` in
`register_client` (line 36): a Python set add is a no-op on a present
element. -/
def add_client (s : DashState) (c : Nat) : DashState :=
  if c ∈ s.clients then s else { s with clients := s.clients ++ [c] }

/-- Client removal, `self.clients.remove(websocket)` in the `finally`
block of `register_client` (line 41): Python `set.remove` raises
`KeyError` when the element is absent. -/
def remove_client (clients : List Nat) (c : Nat) : Except String (List Nat) :=
  if c ∈ clients then Except.ok (clients.erase c) else Except.error "KeyError"

/-- The initial metrics of `HydraFlowDashboard.__init__` (lines 21-31):
99.8 = 499/5, 0.85 = 17/20, 0.15 = 3/20. -/
def initMetrics : Metrics :=
  { orders_executed := 0
    total_volume := 0
    avg_latency_us := 0
    success_rate := 499/5
    active_strategies := 12
    ai_confidence := 17/20
    risk_score := 3/20
    memecoin_scanned := 0
    profits_usd := 0 }

/-- The state of a freshly constructed `HydraFlowDashboard`:
`self.clients = set()`, the initial metrics, `self.live_trades = []`. -/
def initState : DashState :=
  { clients := [], metrics := initMetrics, live_trades := [] }

/-- A fixed draws record satisfying `validDraws`, for concrete
evaluations. -/
def sampleDraws : Draws :=
  { ordersInc := 3
    volumeInc := 2000
    latencySample := 100
    confidenceDraw := 1/10
    riskDraw := 1/10
    memecoinInc := 2
    profitsInc := 50
    eventRoll := 4/5
    tokenIdx := 0
    sideIdx := 0
    amountDraw := 1500
    priceDraw := 1
    latencyDraw := 50
    sourceIdx := 0
    exchangeIdx := 0
    timeMs := 1700000000000
    isoNow := "2026-10-12T00:00:00" }

/-- The fixed sample draws satisfy every bound of `validDraws`. -/
theorem sampleDraws_valid : validDraws sampleDraws := by
  norm_num [validDraws, sampleDraws, tokens, sides, sourcesList, exchanges]

/-- C10: immediately after construction the event history is empty,
the metrics hold the fixed initial values, and the initial state
already satisfies the history capacity bound and the `ai_confidence`
and `risk_score` range invariants. -/
theorem C10_initial_state :
    initState.live_trades = [] ∧
    initState.metrics.orders_executed = 0 ∧
    initState.metrics.total_volume = 0 ∧
    initState.metrics.avg_latency_us = 0 ∧
    initState.metrics.success_rate = 499/5 ∧
    initState.metrics.active_strategies = 12 ∧
    initState.metrics.ai_confidence = 17/20 ∧
    initState.metrics.risk_score = 3/20 ∧
    initState.metrics.memecoin_scanned = 0 ∧
    initState.metrics.profits_usd = 0 ∧
    initState.live_trades.length ≤ 100 ∧
    3/4 ≤ initState.metrics.ai_confidence ∧ initState.metrics.ai_confidence ≤ 1 ∧
    1/20 ≤ initState.metrics.risk_score ∧ initState.metrics.risk_score ≤ 1/4 := by
  refine ⟨rfl, rfl, rfl, rfl, rfl, rfl, rfl, rfl, rfl, rfl, ?_, ?_, ?_, ?_, ?_⟩ <;>
    norm_num [initState, initMetrics]

/-- C2: inserting a trade into a history of length at most 100 leaves
the length at most 100; inserting into a history at capacity evicts
exactly the oldest element and keeps the others in insertion order;
inserting below capacity appends without eviction. -/
theorem C2_history_bound (trades : List Trade) (t : Trade)
    (h : trades.length ≤ 100) :
    (appendTrade trades t).length ≤ 100 ∧
    (trades.length = 100 → appendTrade trades t = trades.drop 1 ++ [t]) ∧
    (trades.length < 100 → appendTrade trades t = trades ++ [t]) := by
  unfold appendTrade
  simp only [List.length_append, List.length_cons, List.length_nil, Nat.zero_add]
  refine ⟨?_, ?_, ?_⟩
  · by_cases h100 : 100 < trades.length + 1
    · simp only [if_pos h100, List.length_drop, List.length_append,
        List.length_cons, List.length_nil]
      omega
    · simp only [if_neg h100, List.length_append, List.length_cons, List.length_nil]
      omega
  · intro h0
    have h100 : 100 < trades.length + 1 := by omega
    simp only [if_pos h100]
    have hd : trades.length + 1 - 100 = 1 := by omega
    rw [hd, List.drop_append_of_le_length (by omega)]
  · intro h0
    have h100 : ¬ 100 < trades.length + 1 := by omega
    simp only [if_neg h100]

/-- Witness for C2 at a concrete input. -/
theorem C2_history_bound_witness :
    (appendTrade [] (mkTrade sampleDraws)).length ≤ 100 ∧
    (([] : List Trade).length = 100 →
      appendTrade [] (mkTrade sampleDraws) = List.drop 1 [] ++ [mkTrade sampleDraws]) ∧
    (([] : List Trade).length < 100 →
      appendTrade [] (mkTrade sampleDraws) = [] ++ [mkTrade sampleDraws]) :=
  C2_history_bound [] (mkTrade sampleDraws) (by simp)

/-- Unfolding lemma: with an empty client set the tick body is
skipped. -/
theorem broadcast_tick_empty (s : DashState) (d : Draws) (f : Nat → Bool)
    (h : s.clients.isEmpty = true) :
    broadcast_tick s d f = (s, none, []) := by
  unfold broadcast_tick
  rw [if_pos h]

/-- Unfolding lemma: with a non-empty client set the tick regenerates
the data, builds the message, and attempts one delivery per client. -/
theorem broadcast_tick_active (s : DashState) (d : Draws) (f : Nat → Bool)
    (h : s.clients.isEmpty = false) :
    broadcast_tick s d f =
      ({ s with
          metrics := (generate_live_data s.metrics s.live_trades d).1
          live_trades := (generate_live_data s.metrics s.live_trades d).2 },
       some { type := "update"
              timestamp := d.isoNow
              metrics := (generate_live_data s.metrics s.live_trades d).1
              live_trades := lastN 10 (generate_live_data s.metrics s.live_trades d).2
              system_status := system_status },
       s.clients.map fun c => (c, if f c then Except.error () else Except.ok ())) := by
  unfold broadcast_tick
  rw [if_neg (by simp [h])]

/-- A `getD` lookup at an in-range index is a member of the list. -/
theorem getD_mem {l : List String} {n : Nat} (hn : n < l.length) :
    l.getD n "" ∈ l := by
  rw [List.getD_eq_getElem l "" hn]
  exact List.getElem_mem hn

/-- The full description of one `generate_live_data` call: each metric
field is mutated exactly as the fixed policy prescribes, `success_rate`
and `active_strategies` are untouched, and the trade branch appends
exactly one trade (with the drawn, rounded fields) precisely when the
roll exceeds 0.7. -/
def updatePolicyOK (m : Metrics) (trades : List Trade) (d : Draws) : Prop :=
  (generate_live_data m trades d).1.orders_executed = m.orders_executed + d.ordersInc ∧
  1 ≤ d.ordersInc ∧ d.ordersInc ≤ 5 ∧
  (generate_live_data m trades d).1.total_volume = m.total_volume + d.volumeInc ∧
  1000 ≤ d.volumeInc ∧ d.volumeInc ≤ 50000 ∧
  (generate_live_data m trades d).1.avg_latency_us = d.latencySample ∧
  50 ≤ d.latencySample ∧ d.latencySample ≤ 150 ∧
  (generate_live_data m trades d).1.ai_confidence = 3/4 + d.confidenceDraw ∧
  0 ≤ d.confidenceDraw ∧ d.confidenceDraw ≤ 1/4 ∧
  (generate_live_data m trades d).1.risk_score = d.riskDraw ∧
  1/20 ≤ d.riskDraw ∧ d.riskDraw ≤ 1/4 ∧
  (generate_live_data m trades d).1.memecoin_scanned = m.memecoin_scanned + d.memecoinInc ∧
  d.memecoinInc ≤ 3 ∧
  (generate_live_data m trades d).1.profits_usd = m.profits_usd + d.profitsInc ∧
  -100 ≤ d.profitsInc ∧ d.profitsInc ≤ 500 ∧
  (generate_live_data m trades d).1.success_rate = m.success_rate ∧
  (generate_live_data m trades d).1.active_strategies = m.active_strategies ∧
  (7/10 < d.eventRoll →
    (generate_live_data m trades d).2 = appendTrade trades (mkTrade d) ∧
    (mkTrade d).amount_usd = pyRound 2 d.amountDraw ∧
    1000 ≤ d.amountDraw ∧ d.amountDraw ≤ 25000 ∧
    (mkTrade d).price = pyRound 6 d.priceDraw ∧
    1/1000 ≤ d.priceDraw ∧ d.priceDraw ≤ 100000 ∧
    (mkTrade d).latency_us = pyRound 1 d.latencyDraw ∧
    45 ≤ d.latencyDraw ∧ d.latencyDraw ≤ 200 ∧
    (mkTrade d).side ∈ sides ∧
    (mkTrade d).token ∈ tokens ∧
    (mkTrade d).source ∈ sourcesList ∧
    (mkTrade d).exchange ∈ exchanges ∧
    (mkTrade d).status = "EXECUTED") ∧
  (¬ 7/10 < d.eventRoll → (generate_live_data m trades d).2 = trades)

/-- C1: on every tick in which the state is advanced, the mutation of
`generate_live_data` conforms exactly to the fixed policy and touches
nothing else; the trade branch fires exactly on the 30 percent roll
region (`eventRoll > 0.7` for a uniform roll in `[0,1)`), appending a
single trade whose numeric fields are the draws rounded to 2, 6 and 1
decimal places and whose tag fields come from the fixed enumerated
sets, with status `EXECUTED`. -/
theorem C1_update_policy (m : Metrics) (trades : List Trade) (d : Draws)
    (h : validDraws d) : updatePolicyOK m trades d := by
  obtain ⟨h1, h2, h3, h4, h5, h6, h7, h8, h9, h10, h11, h12, h13, h14, h15,
    h16, h17, h18, h19, h20, h21, h22, h23, h24, h25⟩ := h
  refine ⟨rfl, h1, h2, rfl, h3, h4, rfl, h5, h6, rfl, h7, h8, rfl, h9, h10,
    rfl, h11, rfl, h12, h13, rfl, rfl, ?_, ?_⟩
  · intro hroll
    refine ⟨?_, rfl, h18, h19, rfl, h20, h21, rfl, h22, h23, ?_, ?_, ?_, ?_, rfl⟩
    · show (if 7/10 < d.eventRoll then appendTrade trades (mkTrade d) else trades) =
        appendTrade trades (mkTrade d)
      exact if_pos hroll
    · exact getD_mem h17
    · exact getD_mem h16
    · exact getD_mem h24
    · exact getD_mem h25
  · intro hroll
    show (if 7/10 < d.eventRoll then appendTrade trades (mkTrade d) else trades) = trades
    exact if_neg hroll

/-- Witness for C1 at a concrete metrics state and draw record. -/
theorem C1_update_policy_witness :
    validDraws sampleDraws ∧ updatePolicyOK initMetrics [] sampleDraws :=
  ⟨sampleDraws_valid, C1_update_policy initMetrics [] sampleDraws sampleDraws_valid⟩

/-- C6: on every tick (whether or not the state is advanced) the
fields `orders_executed`, `total_volume` and `memecoin_scanned` do not
decrease; since this holds at every state, the three fields are
monotonically non-decreasing along every tick sequence from the
initial state. -/
theorem C6_monotone_counters (s : DashState) (d : Draws) (f : Nat → Bool)
    (h : validDraws d) :
    s.metrics.orders_executed ≤ (broadcast_tick s d f).1.metrics.orders_executed ∧
    s.metrics.total_volume ≤ (broadcast_tick s d f).1.metrics.total_volume ∧
    s.metrics.memecoin_scanned ≤ (broadcast_tick s d f).1.metrics.memecoin_scanned := by
  obtain ⟨h1, h2, h3, h4, h5⟩ := h
  cases hc : s.clients.isEmpty with
  | true =>
      rw [broadcast_tick_empty s d f hc]
      exact ⟨le_refl _, le_refl _, le_refl _⟩
  | false =>
      rw [broadcast_tick_active s d f hc]
      refine ⟨Nat.le_add_right _ _, ?_, Nat.le_add_right _ _⟩
      show s.metrics.total_volume ≤ s.metrics.total_volume + d.volumeInc
      linarith

/-- Witness for C6 at a concrete state and draw record. -/
theorem C6_monotone_counters_witness :
    validDraws sampleDraws ∧
    (initState.metrics.orders_executed ≤
      (broadcast_tick initState sampleDraws fun _ => false).1.metrics.orders_executed ∧
    initState.metrics.total_volume ≤
      (broadcast_tick initState sampleDraws fun _ => false).1.metrics.total_volume ∧
    initState.metrics.memecoin_scanned ≤
      (broadcast_tick initState sampleDraws fun _ => false).1.metrics.memecoin_scanned) :=
  ⟨sampleDraws_valid,
   C6_monotone_counters initState sampleDraws (fun _ => false) sampleDraws_valid⟩

/-- The range invariant of C7: `ai_confidence` in `[0.75, 1]` and
`risk_score` in `[0.05, 0.25]`. -/
def metricsInv (m : Metrics) : Prop :=
  3/4 ≤ m.ai_confidence ∧ m.ai_confidence ≤ 1 ∧
  1/20 ≤ m.risk_score ∧ m.risk_score ≤ 1/4

/-- One tick preserves the range invariant, whether or not it advances
the state. -/
theorem tick_preserves_inv (s : DashState) (d : Draws) (f : Nat → Bool)
    (hs : metricsInv s.metrics) (hd : validDraws d) :
    metricsInv (broadcast_tick s d f).1.metrics := by
  obtain ⟨h1, h2, h3, h4, h5, h6, h7, h8, h9, h10, h11⟩ := hd
  cases hc : s.clients.isEmpty with
  | true =>
      rw [broadcast_tick_empty s d f hc]
      exact hs
  | false =>
      rw [broadcast_tick_active s d f hc]
      refine ⟨?_, ?_, ?_, ?_⟩
      · show (3:ℚ)/4 ≤ 3/4 + d.confidenceDraw
        linarith
      · show (3:ℚ)/4 + d.confidenceDraw ≤ 1
        linarith
      · exact h9
      · exact h10

/-- The range invariant is preserved along every tick sequence with
in-bounds draws. -/
theorem runTicks_inv (inputs : List (Draws × (Nat → Bool))) (s : DashState)
    (hs : metricsInv s.metrics) (h : ∀ p ∈ inputs, validDraws p.1) :
    metricsInv (runTicks s inputs).metrics := by
  induction inputs generalizing s with
  | nil => exact hs
  | cons p ps ih =>
      have h1 : validDraws p.1 := h p (List.mem_cons_self p ps)
      have h2 : ∀ q ∈ ps, validDraws q.1 := fun q hq => h q (List.mem_cons_of_mem p hq)
      exact ih (broadcast_tick s p.1 p.2).1 (tick_preserves_inv s p.1 p.2 hs h1) h2

/-- C7: after every tick sequence from the initial state whose draws
are in bounds (including ticks that skip the regeneration),
`ai_confidence` lies in `[0.75, 1]` and `risk_score` lies in
`[0.05, 0.25]`. -/
theorem C7_confidence_risk_ranges (inputs : List (Draws × (Nat → Bool)))
    (h : ∀ p ∈ inputs, validDraws p.1) :
    3/4 ≤ (runTicks initState inputs).metrics.ai_confidence ∧
    (runTicks initState inputs).metrics.ai_confidence ≤ 1 ∧
    1/20 ≤ (runTicks initState inputs).metrics.risk_score ∧
    (runTicks initState inputs).metrics.risk_score ≤ 1/4 :=
  runTicks_inv inputs initState
    (by norm_num [metricsInv, initState, initMetrics]) h

/-- Witness for C7 on a concrete one-tick sequence. -/
theorem C7_confidence_risk_ranges_witness :
    (∀ p ∈ [((sampleDraws, fun _ => false) : Draws × (Nat → Bool))], validDraws p.1) ∧
    (3/4 ≤ (runTicks initState
      [((sampleDraws, fun _ => false) : Draws × (Nat → Bool))]).metrics.ai_confidence ∧
    (runTicks initState
      [((sampleDraws, fun _ => false) : Draws × (Nat → Bool))]).metrics.ai_confidence ≤ 1 ∧
    1/20 ≤ (runTicks initState
      [((sampleDraws, fun _ => false) : Draws × (Nat → Bool))]).metrics.risk_score ∧
    (runTicks initState
      [((sampleDraws, fun _ => false) : Draws × (Nat → Bool))]).metrics.risk_score ≤ 1/4) :=
  ⟨by intro p hp; simp only [List.mem_singleton] at hp; subst hp; exact sampleDraws_valid,
   C7_confidence_risk_ranges [((sampleDraws, fun _ => false) : Draws × (Nat → Bool))]
     (by intro p hp; simp only [List.mem_singleton] at hp; subst hp;
         exact sampleDraws_valid)⟩

/-- C8: a tick invoked while the client set is empty is a no-op: the
state (metrics and trade history included) is unchanged, no message is
built or serialized, and no delivery is attempted. -/
theorem C8_empty_tick_noop (s : DashState) (d : Draws) (f : Nat → Bool)
    (h : s.clients = []) :
    broadcast_tick s d f = (s, none, []) :=
  broadcast_tick_empty s d f (by simp [h])

/-- Witness for C8 at the initial state. -/
theorem C8_empty_tick_noop_witness :
    initState.clients = [] ∧
    broadcast_tick initState sampleDraws (fun _ => false) = (initState, none, []) :=
  ⟨rfl, C8_empty_tick_noop initState sampleDraws (fun _ => false) rfl⟩

/-- A dashboard state with exactly one connected client, for concrete
evaluations. -/
def oneClientState : DashState :=
  { clients := [7], metrics := initMetrics, live_trades := [] }

/-- C5: on every tick with a non-empty client set, the message that is
serialized and sent to every subscriber has type `update`, a generation
timestamp, the full metrics record (all nine fields are part of the
`Metrics` structure), the last 10 trades of the regenerated history in
order (most-recent last, hence a suffix of the history of length at
most 10), and the fixed static `system_status` map. -/
theorem C5_message_shape (s : DashState) (d : Draws) (f : Nat → Bool)
    (h : s.clients.isEmpty = false) :
    ∃ msg : Message,
      (broadcast_tick s d f).2.1 = some msg ∧
      msg.type = "update" ∧
      msg.timestamp = d.isoNow ∧
      msg.metrics = (generate_live_data s.metrics s.live_trades d).1 ∧
      msg.live_trades = lastN 10 (generate_live_data s.metrics s.live_trades d).2 ∧
      msg.live_trades.length ≤ 10 ∧
      msg.live_trades <:+ (generate_live_data s.metrics s.live_trades d).2 ∧
      msg.system_status = system_status := by
  rw [broadcast_tick_active s d f h]
  refine ⟨_, rfl, rfl, rfl, rfl, rfl, ?_, ?_, rfl⟩
  · show (lastN 10 (generate_live_data s.metrics s.live_trades d).2).length ≤ 10
    unfold lastN
    rw [List.length_drop]
    omega
  · exact List.drop_suffix _ _

/-- Witness for C5 at a concrete one-client state. -/
theorem C5_message_shape_witness :
    oneClientState.clients.isEmpty = false ∧
    (∃ msg : Message,
      (broadcast_tick oneClientState sampleDraws fun _ => false).2.1 = some msg ∧
      msg.type = "update" ∧
      msg.timestamp = sampleDraws.isoNow ∧
      msg.metrics =
        (generate_live_data oneClientState.metrics oneClientState.live_trades sampleDraws).1 ∧
      msg.live_trades =
        lastN 10
          (generate_live_data oneClientState.metrics oneClientState.live_trades sampleDraws).2 ∧
      msg.live_trades.length ≤ 10 ∧
      msg.live_trades <:+
        (generate_live_data oneClientState.metrics oneClientState.live_trades sampleDraws).2 ∧
      msg.system_status = system_status) :=
  ⟨rfl, C5_message_shape oneClientState sampleDraws (fun _ => false) rfl⟩

/-- C4: on every tick with a non-empty client set, one delivery
outcome is produced for every client in the set, regardless of which
subset of deliveries fails, and every client whose channel does not
fail receives a successful send; failures are captured as `Except`
values in the result of the total function `broadcast_tick`
(mirroring `return_exceptions=True`), so no exception reaches the
caller of the tick. -/
theorem C4_failures_do_not_abort (s : DashState) (d : Draws) (f : Nat → Bool)
    (h : s.clients.isEmpty = false) :
    ((broadcast_tick s d f).2.2).map Prod.fst = s.clients ∧
    ∀ c ∈ s.clients, f c = false →
      (c, Except.ok ()) ∈ (broadcast_tick s d f).2.2 := by
  rw [broadcast_tick_active s d f h]
  constructor
  · have hid : (Prod.fst ∘ fun c : Nat =>
        (c, if f c then Except.error () else Except.ok ())) = id := rfl
    rw [List.map_map, hid, List.map_id]
  · intro c hc hfc
    simp only [List.mem_map]
    exact ⟨c, hc, by rw [hfc]; rfl⟩

/-- Witness for C4 on a two-client state where exactly one delivery
fails: the other client is still served. -/
theorem C4_failures_do_not_abort_witness :
    (({ clients := [7, 8], metrics := initMetrics, live_trades := [] } :
        DashState).clients.isEmpty = false) ∧
    (((broadcast_tick
        { clients := [7, 8], metrics := initMetrics, live_trades := [] }
        sampleDraws fun c => c == 7).2.2).map Prod.fst =
      ({ clients := [7, 8], metrics := initMetrics, live_trades := [] } :
        DashState).clients ∧
    ∀ c ∈ ({ clients := [7, 8], metrics := initMetrics, live_trades := [] } :
        DashState).clients, (fun c => c == 7) c = false →
      (c, Except.ok ()) ∈
        (broadcast_tick { clients := [7, 8], metrics := initMetrics, live_trades := [] }
          sampleDraws fun c => c == 7).2.2) :=
  ⟨rfl, C4_failures_do_not_abort
    { clients := [7, 8], metrics := initMetrics, live_trades := [] }
    sampleDraws (fun c => c == 7) rfl⟩

/-- Counterexample to C3 as stated: in the state with the single
client 7, whose channel fails on send (`sendFails` constantly true),
client 7 is still a member of the client set after the tick returns —
`broadcast_data` collects send failures with `return_exceptions=True`
and never removes the failed client. -/
theorem C3_counterexample :
    (fun _ => true : Nat → Bool) 7 = true ∧
    7 ∈ oneClientState.clients ∧
    7 ∈ (broadcast_tick oneClientState sampleDraws fun _ => true).1.clients := by
  refine ⟨rfl, by simp [oneClientState], ?_⟩
  rw [broadcast_tick_active oneClientState sampleDraws (fun _ => true) rfl]
  simp [oneClientState]

/-- C3 amended: a tick never mutates the client set — in particular a
subscriber whose delivery fails is still present immediately after the
tick returns, and will be attempted again on the next tick; clients
are removed only by the connection-close path of `register_client`. -/
theorem C3_tick_preserves_clients (s : DashState) (d : Draws) (f : Nat → Bool) :
    (broadcast_tick s d f).1.clients = s.clients := by
  cases hc : s.clients.isEmpty with
  | true => rw [broadcast_tick_empty s d f hc]
  | false => rw [broadcast_tick_active s d f hc]

/-- Counterexample to C9 as stated: removing a handle that is not in
the client set is not a no-op — `set.remove` raises `KeyError`. -/
theorem C9_counterexample :
    remove_client [] 0 = Except.error "KeyError" ∧
    remove_client [] 0 ≠ Except.ok [] := by
  refine ⟨rfl, ?_⟩
  simp [remove_client]

/-- C9 amended: removing a present handle succeeds and removes it, but
invoking `leave` again for the same handle (now absent) raises
`KeyError` instead of being a no-op; the set has no duplicate handles,
matching a Python `set`. -/
theorem C9_double_leave_raises (clients : List Nat) (c : Nat)
    (hnd : clients.Nodup) (hc : c ∈ clients) :
    remove_client clients c = Except.ok (clients.erase c) ∧
    remove_client (clients.erase c) c = Except.error "KeyError" := by
  constructor
  · unfold remove_client
    rw [if_pos hc]
  · unfold remove_client
    rw [if_neg (hnd.not_mem_erase)]

/-- Witness for the amended C9 on a concrete one-element set. -/
theorem C9_double_leave_raises_witness :
    ([5] : List Nat).Nodup ∧ 5 ∈ ([5] : List Nat) ∧
    (remove_client [5] 5 = Except.ok (([5] : List Nat).erase 5) ∧
     remove_client (([5] : List Nat).erase 5) 5 = Except.error "KeyError") :=
  ⟨by simp, by simp,
   C9_double_leave_raises [5] 5 (by simp) (by simp)⟩
